import Mathlib

/-!
Verification of the RustedBytes Game of Life pipeline.

The program is a single Rust `main` driving an OpenCL kernel. We embed it
shallowly:

* the OpenCL kernel `game_of_life` becomes `nextGrid` (per cell: `nextCell`,
  neighbor counting over the 8 wrapped offsets `offsets` in the loop order
  `dy` outer, `dx` inner, with `(x + dx + width) % width` wrapping);
* the host state of `main` (the device grid buffer, `current_fps`, and
  `frame_buffer`) becomes `AppState`;
* one iteration of the `while` loop becomes `tick`, decomposed into
  `resetStep` (Space / right mouse), `rateStep` (Up / Down keys),
  `paintStep` (left mouse), the kernel dispatch `nextGrid`, the frame-buffer
  fill `renderInto`, and the final write of the new grid back into the
  current-grid buffer;
* the random reseeding draws are abstracted as a Boolean stream
  `r : Nat → Bool` (the result of each `random_bool(0.2)` call);
* `usize` arithmetic on the fps counter is modelled on `Nat` with wrapping
  modulo `USIZE = 2 ^ 64` (Rust release semantics of `+` and `-`).
-/

namespace RBLife

/-- Window / grid width constant from the source (`WIDTH`). -/
def WIDTH : Nat := 480

/-- Window / grid height constant from the source (`HEIGHT`). -/
def HEIGHT : Nat := 360

/-- Foreground color constant from the source (`ALIVE_COLOR = 0x6A66A3`). -/
def ALIVE_COLOR : Nat := 0x6A66A3

/-- Background color constant from the source (`DEAD_COLOR = 0xDDD8B8`). -/
def DEAD_COLOR : Nat := 0xDDD8B8

/-- `2 ^ 64`, the modulus of Rust `usize` arithmetic on the fps counter. -/
def USIZE : Nat := 18446744073709551616

/-- A grid: width, height among the cell bytes in row-major order
(index of `(x, y)` is `y * width + x`), as handed to the kernel. -/
structure Grid where
  width : Nat
  height : Nat
  cells : List Nat
deriving DecidableEq

/-- Read the byte at flat index `i` of the grid (`grid[idx]` in the kernel). -/
def cellAt (g : Grid) (i : Nat) : Nat := g.cells.getD i 0

/-- The eight neighbor offsets `(dx, dy)` in the order the kernel loops
visit them (`dy` outer from -1 to 1, `dx` inner, skipping `(0,0)`). -/
def offsets : List (Int × Int) :=
  [(-1, -1), (0, -1), (1, -1), (-1, 0), (1, 0), (-1, 1), (0, 1), (1, 1)]

/-- Toroidal wrap of one coordinate: `(c + d + m) % m` in the kernel's
int arithmetic, mapped back to a natural index. -/
def wrapCoord (c : Nat) (d : Int) (m : Nat) : Nat :=
  (((c : Int) + d + (m : Int)) % (m : Int)).toNat

/-- The eight wrapped neighbor coordinates `(nx, ny)` of cell `(x, y)`
computed by the kernel loops. -/
def neighborCoords (g : Grid) (x y : Nat) : List (Nat × Nat) :=
  offsets.map (fun d => (wrapCoord x d.1 g.width, wrapCoord y d.2 g.height))

/-- `alive_neighbors`: the sum of the eight wrapped neighbors' bytes
(`alive_neighbors += grid[n_idx]` with `n_idx = ny * width + nx`). -/
def aliveNeighbors (g : Grid) (x y : Nat) : Nat :=
  ((neighborCoords g x y).map (fun p => cellAt g (p.2 * g.width + p.1))).sum

/-- The kernel's final conditional: alive cells survive on 2 or 3 neighbors,
dead cells are born on exactly 3, everything else is 0. -/
def lifeRule (cur n : Nat) : Nat :=
  if cur = 1 then (if n = 2 ∨ n = 3 then 1 else 0)
  else (if n = 3 then 1 else 0)

/-- `new_grid[idx]` for the work item at `(x, y)`. -/
def nextCell (g : Grid) (x y : Nat) : Nat :=
  lifeRule (cellAt g (y * g.width + x)) (aliveNeighbors g x y)

/-- One kernel dispatch over dims `(width, height)`: every flat index
`i = y * width + x` of `new_grid` receives `nextCell` at `(i % width, i / width)`. -/
def nextGrid (g : Grid) : Grid :=
  ⟨g.width, g.height,
    (List.range (g.width * g.height)).map (fun i => nextCell g (i % g.width) (i / g.width))⟩

/-- The 3×3 blinker of the spec's end-to-end scenario: center row alive. -/
def blinker3 : Grid := ⟨3, 3, [0, 0, 0, 1, 1, 1, 0, 0, 0]⟩

/-- Command-line arguments (`Args`): the initial fps value. Clap validates
only that it parses as a `usize`; `main` uses it unclamped. -/
structure Args where
  fps : Nat
deriving DecidableEq

/-- The input state the loop polls from the window in one iteration:
Space or right mouse (reset), Up, Down, left mouse, and the mouse
position as already cast to integer coordinates (`mouse_x as usize`). -/
structure Input where
  resetHeld : Bool
  upHeld : Bool
  downHeld : Bool
  leftHeld : Bool
  mousePos : Option (Nat × Nat)
deriving DecidableEq

/-- The host state carried across loop iterations: `current_fps`, the
contents of the device buffer `buffer_grid` (the authoritative current
grid: every host-side edit is immediately written back to it), and
`frame_buffer`. -/
structure AppState where
  fps : Nat
  grid : Grid
  frameBuffer : List Nat
deriving DecidableEq

/-- `(current_fps + 5).min(250)` with wrapping `usize` addition. -/
def rateUp (f : Nat) : Nat := min ((f + 5) % USIZE) 250

/-- `(current_fps - 5).max(5)` with wrapping `usize` subtraction. -/
def rateDown (f : Nat) : Nat := max ((f + USIZE - 5) % USIZE) 5

/-- A fresh random grid: cell `i` is 1 exactly when the `i`-th draw of the
Boolean stream `r` (the result of `random_bool(0.2)`) is true. -/
def randomGrid (w h : Nat) (r : Nat → Bool) : Grid :=
  ⟨w, h, (List.range (w * h)).map (fun i => if r i then 1 else 0)⟩

/-- The reset branch: if Space or the right mouse button is held, reseed
the grid (and write it to the device buffer); otherwise do nothing. -/
def resetStep (r : Nat → Bool) (inp : Input) (s : AppState) : AppState :=
  if inp.resetHeld then { s with grid := randomGrid s.grid.width s.grid.height r } else s

/-- The two rate branches applied to the fps counter: the Up branch first,
then the Down branch on its result (they are independent `if`s). -/
def applyRate (inp : Input) (f : Nat) : Nat :=
  let f1 := if inp.upHeld then rateUp f else f
  if inp.downHeld then rateDown f1 else f1

/-- The Up/Down key branches of the loop. -/
def rateStep (inp : Input) (s : AppState) : AppState :=
  { s with fps := applyRate inp s.fps }

/-- The paint branch: if the mouse position is available and the left
button is held and the cast coordinates are in bounds, read the device
grid, set the cell under the cursor to 1, and write it back. -/
def paintStep (inp : Input) (s : AppState) : AppState :=
  match inp.mousePos with
  | some (x, y) =>
    if inp.leftHeld then
      if x < s.grid.width ∧ y < s.grid.height then
        { s with grid := { s.grid with cells := s.grid.cells.set (y * s.grid.width + x) 1 } }
      else s
    else s
  | none => s

/-- The whole input-handling prefix of one loop iteration, in source
order: reset, then rate keys, then painting. -/
def inputStep (r : Nat → Bool) (inp : Input) (s : AppState) : AppState :=
  paintStep inp (rateStep inp (resetStep r inp s))

/-- The per-cell render mapping: `if cell == 1 { ALIVE_COLOR } else { DEAD_COLOR }`. -/
def colorOf (c : Nat) : Nat := if c = 1 then ALIVE_COLOR else DEAD_COLOR

/-- The frame-buffer fill loop: for each enumerated cell of the new grid,
overwrite `frame_buffer[i]` in place with its color. -/
def renderInto (fb : List Nat) (cells : List Nat) (i : Nat) : List Nat :=
  match cells with
  | [] => fb
  | c :: cs => renderInto (fb.set i (colorOf c)) cs (i + 1)

/-- One full iteration of the `while` loop: poll input (reset, rate,
paint), dispatch the kernel on the current grid, read back the new grid,
fill the frame buffer from it, present, and write the new grid into the
current-grid device buffer for the next iteration. -/
def tick (r : Nat → Bool) (inp : Input) (s : AppState) : AppState :=
  let s1 := inputStep r inp s
  let ng := nextGrid s1.grid
  { fps := s1.fps, grid := ng, frameBuffer := renderInto s1.frameBuffer ng.cells 0 }

/-- The state right before the first loop iteration: fps from the command
line (unclamped), a random WIDTH×HEIGHT grid, and a zeroed frame buffer. -/
def initState (a : Args) (r : Nat → Bool) : AppState :=
  { fps := a.fps
    grid := randomGrid WIDTH HEIGHT r
    frameBuffer := List.replicate (WIDTH * HEIGHT) 0 }

/-- The states the program can reach: the initial state for any arguments
and random draws, closed under loop iterations with any input and draws. -/
inductive Reaches : AppState → Prop
  | init (a : Args) (r : Nat → Bool) : Reaches (initState a r)
  | step (r : Nat → Bool) (inp : Input) (s : AppState) :
      Reaches s → Reaches (tick r inp s)

/-- Every cell byte of the grid is 0 or 1. -/
def CellsOk (g : Grid) : Prop := ∀ c ∈ g.cells, c = 0 ∨ c = 1

end RBLife

namespace RBLife

lemma nextGrid_width (g : Grid) : (nextGrid g).width = g.width := rfl

lemma nextGrid_height (g : Grid) : (nextGrid g).height = g.height := rfl

lemma nextGrid_length (g : Grid) : (nextGrid g).cells.length = g.width * g.height := by
  simp [nextGrid]

lemma flat_index_lt_nat {w h x y : Nat} (hx : x < w) (hy : y < h) :
    y * w + x < w * h := by
  have h1 : y * w + x < (y + 1) * w := by
    rw [Nat.succ_mul]
    exact Nat.add_lt_add_left hx _
  have h2 : (y + 1) * w ≤ h * w :=
    Nat.mul_le_mul_right _ (Nat.succ_le_of_lt hy)
  rw [Nat.mul_comm w h]
  exact Nat.lt_of_lt_of_le h1 h2

lemma flat_index_lt (g : Grid) {x y : Nat} (hx : x < g.width) (hy : y < g.height) :
    y * g.width + x < g.width * g.height :=
  flat_index_lt_nat hx hy

lemma cellAt_nextGrid (g : Grid) {x y : Nat} (hx : x < g.width) (hy : y < g.height) :
    cellAt (nextGrid g) (y * g.width + x) = nextCell g x y := by
  have hi : y * g.width + x < ((List.range (g.width * g.height)).map
      (fun i => nextCell g (i % g.width) (i / g.width))).length := by
    simpa using flat_index_lt g hx hy
  show ((List.range (g.width * g.height)).map
      (fun i => nextCell g (i % g.width) (i / g.width))).getD (y * g.width + x) 0 = _
  rw [List.getD_eq_getElem _ _ hi, List.getElem_map, List.getElem_range]
  have hmod : (y * g.width + x) % g.width = x := by
    rw [Nat.mul_comm y g.width, Nat.mul_add_mod, Nat.mod_eq_of_lt hx]
  have hdiv : (y * g.width + x) / g.width = y := by
    rw [Nat.mul_comm y g.width, Nat.mul_add_div (Nat.lt_of_le_of_lt (Nat.zero_le x) hx),
      Nat.div_eq_of_lt hx, Nat.add_zero]
  rw [hmod, hdiv]

/-- Claim C1: for every grid and every in-bounds cell, the Compute Step
produces, at that cell, 1 exactly when an alive cell has 2 or 3 alive
neighbors or a dead cell has exactly 3 alive neighbors (neighbors counted
over the 8 toroidally wrapped offsets), and 0 in every other combination. -/
theorem compute_step_rule (g : Grid) (x y : Nat) (hx : x < g.width) (hy : y < g.height) :
    (cellAt g (y * g.width + x) = 1 →
      cellAt (nextGrid g) (y * g.width + x) =
        if aliveNeighbors g x y = 2 ∨ aliveNeighbors g x y = 3 then 1 else 0) ∧
    (cellAt g (y * g.width + x) = 0 →
      cellAt (nextGrid g) (y * g.width + x) =
        if aliveNeighbors g x y = 3 then 1 else 0) := by
  rw [cellAt_nextGrid g hx hy]
  unfold nextCell lifeRule
  constructor
  · intro h
    simp [h]
  · intro h
    simp [h]

/-- Witness for C1 at the blinker grid and cell (1, 1). -/
theorem compute_step_rule_witness :
    (cellAt blinker3 (1 * blinker3.width + 1) = 1 →
      cellAt (nextGrid blinker3) (1 * blinker3.width + 1) =
        if aliveNeighbors blinker3 1 1 = 2 ∨ aliveNeighbors blinker3 1 1 = 3 then 1 else 0) ∧
    (cellAt blinker3 (1 * blinker3.width + 1) = 0 →
      cellAt (nextGrid blinker3) (1 * blinker3.width + 1) =
        if aliveNeighbors blinker3 1 1 = 3 then 1 else 0) :=
  compute_step_rule blinker3 1 1 (by decide) (by decide)

/-- Claim C2 counterexample: one Compute Step on the 3×3 blinker does NOT
yield the all-dead grid (on the 3×3 torus every dead cell sees all three
alive cells as wrapped neighbors, so it is born). -/
theorem blinker_not_all_dead :
    ¬ (nextGrid blinker3).cells = [0, 0, 0, 0, 0, 0, 0, 0, 0] := by
  decide

/-- Claim C2 amended: one Compute Step on the 3×3 blinker yields the
all-ALIVE grid; the all-dead grid only appears after a second step. -/
theorem blinker_step_all_alive :
    (nextGrid blinker3).cells = [1, 1, 1, 1, 1, 1, 1, 1, 1] ∧
    (nextGrid (nextGrid blinker3)).cells = [0, 0, 0, 0, 0, 0, 0, 0, 0] := by
  decide

/-- Claim C3: neighbor counting wraps toroidally: for every grid with
positive dimensions, the cell at `(width - 1, height - 1)` is among the
eight wrapped neighbor coordinates of the cell at `(0, 0)`. -/
theorem toroidal_wrap_corner (g : Grid) (hw : 1 ≤ g.width) (hh : 1 ≤ g.height) :
    (g.width - 1, g.height - 1) ∈ neighborCoords g 0 0 := by
  unfold neighborCoords offsets
  refine List.mem_map.mpr ⟨(-1, -1), by simp, ?_⟩
  have hx : wrapCoord 0 (-1) g.width = g.width - 1 := by
    unfold wrapCoord
    have h1 : ((0 : Nat) : Int) + (-1) + (g.width : Int) = (g.width : Int) - 1 := by ring
    rw [h1, Int.emod_eq_of_lt (by omega) (by omega)]
    omega
  have hy : wrapCoord 0 (-1) g.height = g.height - 1 := by
    unfold wrapCoord
    have h1 : ((0 : Nat) : Int) + (-1) + (g.height : Int) = (g.height : Int) - 1 := by ring
    rw [h1, Int.emod_eq_of_lt (by omega) (by omega)]
    omega
  simp only at hx hy ⊢
  rw [hx, hy]

/-- Witness for C3 on a 3×3 grid: (2, 2) is a wrapped neighbor of (0, 0). -/
theorem toroidal_wrap_corner_witness :
    (blinker3.width - 1, blinker3.height - 1) ∈ neighborCoords blinker3 0 0 :=
  toroidal_wrap_corner blinker3 (by decide) (by decide)

/-- Claim C5 counterexample: the initial rate is taken from the command
line unclamped (`current_fps = args.fps`), so with `--fps 300` the rate is
300 at the start of the loop, outside [5, 250]. -/
theorem rate_initial_unclamped :
    (initState ⟨300⟩ (fun _ => false)).fps = 300 ∧ ¬ (300 : Nat) ≤ 250 :=
  ⟨rfl, by decide⟩

/-- Claim C5 amended: each increase yields `min(rate + 5, 250)` and so
never exceeds 250, each decrease yields `max(rate - 5, 5)` and so never
goes below 5, and any rate already in [5, 250] stays in [5, 250] under
both operations; but the initial command-line value itself is NOT clamped,
so the rate is only bounded to [5, 250] once operations have clamped it. -/
theorem rate_ops_clamped (f : Nat) (hf : f < USIZE) :
    rateUp f ≤ 250 ∧
    5 ≤ rateDown f ∧
    (f ≤ 250 → rateUp f = min (f + 5) 250) ∧
    (5 ≤ f → rateDown f = max (f - 5) 5) ∧
    (5 ≤ f → f ≤ 250 →
      5 ≤ rateUp f ∧ rateUp f ≤ 250 ∧ 5 ≤ rateDown f ∧ rateDown f ≤ 250) := by
  unfold rateUp rateDown USIZE at *
  omega

/-- Witness for C5 amended at rate 60. -/
theorem rate_ops_clamped_witness :
    rateUp 60 ≤ 250 ∧
    5 ≤ rateDown 60 ∧
    ((60 : Nat) ≤ 250 → rateUp 60 = min (60 + 5) 250) ∧
    ((5 : Nat) ≤ 60 → rateDown 60 = max (60 - 5) 5) ∧
    ((5 : Nat) ≤ 60 → (60 : Nat) ≤ 250 →
      5 ≤ rateUp 60 ∧ rateUp 60 ≤ 250 ∧ 5 ≤ rateDown 60 ∧ rateDown 60 ≤ 250) :=
  rate_ops_clamped 60 (by decide)

lemma getD_set_same (l : List Nat) (i : Nat) (v : Nat) (h : i < l.length) :
    (l.set i v).getD i 0 = v := by
  rw [List.getD_eq_getElem _ _ (by simpa using h)]
  exact List.getElem_set_self (by simpa using h)

lemma getD_set_other (l : List Nat) (i j v : Nat) (hij : i ≠ j) :
    (l.set i v).getD j 0 = l.getD j 0 := by
  rw [List.getD_eq_getElem?_getD, List.getD_eq_getElem?_getD, List.getElem?_set_ne hij]

lemma resetStep_width (r : Nat → Bool) (inp : Input) (s : AppState) :
    (resetStep r inp s).grid.width = s.grid.width := by
  unfold resetStep
  split <;> rfl

lemma resetStep_height (r : Nat → Bool) (inp : Input) (s : AppState) :
    (resetStep r inp s).grid.height = s.grid.height := by
  unfold resetStep
  split <;> rfl

lemma resetStep_fps (r : Nat → Bool) (inp : Input) (s : AppState) :
    (resetStep r inp s).fps = s.fps := by
  unfold resetStep
  split <;> rfl

lemma resetStep_frameBuffer (r : Nat → Bool) (inp : Input) (s : AppState) :
    (resetStep r inp s).frameBuffer = s.frameBuffer := by
  unfold resetStep
  split <;> rfl

lemma resetStep_length (r : Nat → Bool) (inp : Input) (s : AppState)
    (hlen : s.grid.cells.length = s.grid.width * s.grid.height) :
    (resetStep r inp s).grid.cells.length = s.grid.width * s.grid.height := by
  unfold resetStep
  split
  · simp [randomGrid]
  · exact hlen

lemma paintStep_in_bounds (inp : Input) (s : AppState) (x y : Nat)
    (hm : inp.mousePos = some (x, y)) (hl : inp.leftHeld = true)
    (hx : x < s.grid.width) (hy : y < s.grid.height) :
    paintStep inp s =
      { s with grid :=
        { s.grid with cells := s.grid.cells.set (y * s.grid.width + x) 1 } } := by
  unfold paintStep
  rw [hm]
  simp [hl, hx, hy]

lemma paintStep_out_of_bounds (inp : Input) (s : AppState) (x y : Nat)
    (hm : inp.mousePos = some (x, y)) (hb : ¬ (x < s.grid.width ∧ y < s.grid.height)) :
    paintStep inp s = s := by
  unfold paintStep
  rw [hm]
  by_cases hl : inp.leftHeld = true <;> simp [hl, hb]

lemma paintStep_shape (inp : Input) (s : AppState) :
    (paintStep inp s).fps = s.fps ∧
    (paintStep inp s).frameBuffer = s.frameBuffer ∧
    (paintStep inp s).grid.width = s.grid.width ∧
    (paintStep inp s).grid.height = s.grid.height ∧
    (paintStep inp s).grid.cells.length = s.grid.cells.length := by
  unfold paintStep
  cases hp : inp.mousePos with
  | none => exact ⟨rfl, rfl, rfl, rfl, rfl⟩
  | some p =>
    obtain ⟨x, y⟩ := p
    by_cases hl : inp.leftHeld = true
    · by_cases hb : x < s.grid.width ∧ y < s.grid.height
      · simp [hl, hb]
      · simp [hl, hb]
    · simp [hl]

lemma paintStep_grid_congr (inp : Input) (s t : AppState) (h : s.grid = t.grid) :
    (paintStep inp s).grid = (paintStep inp t).grid := by
  unfold paintStep
  cases hp : inp.mousePos with
  | none => exact h
  | some p =>
    obtain ⟨x, y⟩ := p
    dsimp only
    rw [h]
    by_cases hl : inp.leftHeld = true
    · by_cases hb : x < t.grid.width ∧ y < t.grid.height
      · simp [hl, hb]
      · simp [hl, hb, h]
    · simp [hl, h]

lemma inputStep_grid (r : Nat → Bool) (inp : Input) (s : AppState) :
    (inputStep r inp s).grid = (paintStep inp (resetStep r inp s)).grid :=
  paintStep_grid_congr inp (rateStep inp (resetStep r inp s)) (resetStep r inp s) rfl

lemma inputStep_fps (r : Nat → Bool) (inp : Input) (s : AppState) :
    (inputStep r inp s).fps = applyRate inp s.fps := by
  unfold inputStep
  rw [(paintStep_shape inp (rateStep inp (resetStep r inp s))).1]
  unfold rateStep
  rw [resetStep_fps]

lemma inputStep_frameBuffer (r : Nat → Bool) (inp : Input) (s : AppState) :
    (inputStep r inp s).frameBuffer = s.frameBuffer := by
  unfold inputStep
  rw [(paintStep_shape inp (rateStep inp (resetStep r inp s))).2.1]
  unfold rateStep
  rw [resetStep_frameBuffer]

lemma inputStep_width (r : Nat → Bool) (inp : Input) (s : AppState) :
    (inputStep r inp s).grid.width = s.grid.width := by
  rw [inputStep_grid, (paintStep_shape inp (resetStep r inp s)).2.2.1, resetStep_width]

lemma inputStep_height (r : Nat → Bool) (inp : Input) (s : AppState) :
    (inputStep r inp s).grid.height = s.grid.height := by
  rw [inputStep_grid, (paintStep_shape inp (resetStep r inp s)).2.2.2.1, resetStep_height]

lemma inputStep_length (r : Nat → Bool) (inp : Input) (s : AppState)
    (hlen : s.grid.cells.length = s.grid.width * s.grid.height) :
    (inputStep r inp s).grid.cells.length = s.grid.width * s.grid.height := by
  rw [inputStep_grid, (paintStep_shape inp (resetStep r inp s)).2.2.2.2,
    resetStep_length r inp s hlen]

lemma inputStep_paints (r : Nat → Bool) (inp : Input) (s : AppState) (x y : Nat)
    (hm : inp.mousePos = some (x, y)) (hl : inp.leftHeld = true)
    (hx : x < s.grid.width) (hy : y < s.grid.height)
    (hlen : s.grid.cells.length = s.grid.width * s.grid.height) :
    cellAt (inputStep r inp s).grid (y * s.grid.width + x) = 1 := by
  rw [inputStep_grid]
  have hw : (resetStep r inp s).grid.width = s.grid.width := resetStep_width r inp s
  have hh : (resetStep r inp s).grid.height = s.grid.height := resetStep_height r inp s
  have hln : (resetStep r inp s).grid.cells.length = s.grid.width * s.grid.height :=
    resetStep_length r inp s hlen
  rw [paintStep_in_bounds inp (resetStep r inp s) x y hm hl (by rw [hw]; exact hx)
    (by rw [hh]; exact hy)]
  unfold cellAt
  rw [hw]
  exact getD_set_same _ _ _ (by rw [hln]; exact flat_index_lt_nat hx hy)

/-- Claim C4: with the left button held over cell `(x, y)`, an in-bounds
paint makes the cell at index `y * width + x` alive in the grid that is
the input of the immediately following Compute Step of that tick; an
out-of-bounds paint is a no-op on the whole state; and painting never
turns an alive cell dead. -/
theorem paint_sets_alive (r : Nat → Bool) (inp : Input) (s : AppState) (x y j : Nat)
    (hm : inp.mousePos = some (x, y)) (hl : inp.leftHeld = true)
    (hlen : s.grid.cells.length = s.grid.width * s.grid.height) :
    (x < s.grid.width → y < s.grid.height →
      cellAt (inputStep r inp s).grid (y * s.grid.width + x) = 1) ∧
    (¬ (x < s.grid.width ∧ y < s.grid.height) → paintStep inp s = s) ∧
    (cellAt s.grid j = 1 → cellAt (paintStep inp s).grid j = 1) := by
  refine ⟨fun hx hy => inputStep_paints r inp s x y hm hl hx hy hlen,
    fun hb => paintStep_out_of_bounds inp s x y hm hb, fun hj => ?_⟩
  by_cases hb : x < s.grid.width ∧ y < s.grid.height
  · rw [paintStep_in_bounds inp s x y hm hl hb.1 hb.2]
    unfold cellAt at hj ⊢
    by_cases hij : y * s.grid.width + x = j
    · subst hij
      have hlt : y * s.grid.width + x < s.grid.cells.length := by
        rw [hlen]
        exact flat_index_lt_nat hb.1 hb.2
      rw [getD_set_same _ _ _ hlt]
    · rw [getD_set_other _ _ _ _ hij]
      exact hj
  · rw [paintStep_out_of_bounds inp s x y hm hb]
    exact hj

/-- Witness for C4 on a 2×2 grid, painting (1, 0) and watching cell 0. -/
theorem paint_sets_alive_witness :
    ((1 : Nat) < (AppState.mk 60 ⟨2, 2, [1, 0, 0, 0]⟩ [0, 0, 0, 0]).grid.width →
      (0 : Nat) < (AppState.mk 60 ⟨2, 2, [1, 0, 0, 0]⟩ [0, 0, 0, 0]).grid.height →
      cellAt (inputStep (fun _ => false) ⟨false, false, false, true, some (1, 0)⟩
          (AppState.mk 60 ⟨2, 2, [1, 0, 0, 0]⟩ [0, 0, 0, 0])).grid
        (0 * (AppState.mk 60 ⟨2, 2, [1, 0, 0, 0]⟩ [0, 0, 0, 0]).grid.width + 1) = 1) ∧
    (¬ ((1 : Nat) < (AppState.mk 60 ⟨2, 2, [1, 0, 0, 0]⟩ [0, 0, 0, 0]).grid.width ∧
        (0 : Nat) < (AppState.mk 60 ⟨2, 2, [1, 0, 0, 0]⟩ [0, 0, 0, 0]).grid.height) →
      paintStep ⟨false, false, false, true, some (1, 0)⟩
        (AppState.mk 60 ⟨2, 2, [1, 0, 0, 0]⟩ [0, 0, 0, 0]) =
        AppState.mk 60 ⟨2, 2, [1, 0, 0, 0]⟩ [0, 0, 0, 0]) ∧
    (cellAt (AppState.mk 60 ⟨2, 2, [1, 0, 0, 0]⟩ [0, 0, 0, 0]).grid 0 = 1 →
      cellAt (paintStep ⟨false, false, false, true, some (1, 0)⟩
        (AppState.mk 60 ⟨2, 2, [1, 0, 0, 0]⟩ [0, 0, 0, 0])).grid 0 = 1) :=
  paint_sets_alive (fun _ => false) ⟨false, false, false, true, some (1, 0)⟩
    (AppState.mk 60 ⟨2, 2, [1, 0, 0, 0]⟩ [0, 0, 0, 0]) 1 0 0 rfl rfl (by decide)

/-- Claim C10: painting touches nothing but the painted cell: it leaves
the fps, the frame buffer, the grid dimensions, and every other cell index
unchanged. -/
theorem paint_only_one_cell (inp : Input) (s : AppState) (x y j : Nat)
    (hm : inp.mousePos = some (x, y)) (hl : inp.leftHeld = true)
    (hj : j ≠ y * s.grid.width + x) :
    (paintStep inp s).fps = s.fps ∧
    (paintStep inp s).frameBuffer = s.frameBuffer ∧
    (paintStep inp s).grid.width = s.grid.width ∧
    (paintStep inp s).grid.height = s.grid.height ∧
    cellAt (paintStep inp s).grid j = cellAt s.grid j := by
  obtain ⟨h1, h2, h3, h4, _⟩ := paintStep_shape inp s
  refine ⟨h1, h2, h3, h4, ?_⟩
  by_cases hb : x < s.grid.width ∧ y < s.grid.height
  · rw [paintStep_in_bounds inp s x y hm hl hb.1 hb.2]
    unfold cellAt
    exact getD_set_other _ _ _ _ fun h => hj h.symm
  · rw [paintStep_out_of_bounds inp s x y hm hb]

/-- Witness for C10 on a 2×2 grid, painting (1, 0) and watching cell 2. -/
theorem paint_only_one_cell_witness :
    (paintStep ⟨false, false, false, true, some (1, 0)⟩
      (AppState.mk 60 ⟨2, 2, [1, 0, 1, 0]⟩ [0, 0, 0, 0])).fps =
        (AppState.mk 60 ⟨2, 2, [1, 0, 1, 0]⟩ [0, 0, 0, 0]).fps ∧
    (paintStep ⟨false, false, false, true, some (1, 0)⟩
      (AppState.mk 60 ⟨2, 2, [1, 0, 1, 0]⟩ [0, 0, 0, 0])).frameBuffer =
        (AppState.mk 60 ⟨2, 2, [1, 0, 1, 0]⟩ [0, 0, 0, 0]).frameBuffer ∧
    (paintStep ⟨false, false, false, true, some (1, 0)⟩
      (AppState.mk 60 ⟨2, 2, [1, 0, 1, 0]⟩ [0, 0, 0, 0])).grid.width =
        (AppState.mk 60 ⟨2, 2, [1, 0, 1, 0]⟩ [0, 0, 0, 0]).grid.width ∧
    (paintStep ⟨false, false, false, true, some (1, 0)⟩
      (AppState.mk 60 ⟨2, 2, [1, 0, 1, 0]⟩ [0, 0, 0, 0])).grid.height =
        (AppState.mk 60 ⟨2, 2, [1, 0, 1, 0]⟩ [0, 0, 0, 0]).grid.height ∧
    cellAt (paintStep ⟨false, false, false, true, some (1, 0)⟩
      (AppState.mk 60 ⟨2, 2, [1, 0, 1, 0]⟩ [0, 0, 0, 0])).grid 2 =
        cellAt (AppState.mk 60 ⟨2, 2, [1, 0, 1, 0]⟩ [0, 0, 0, 0]).grid 2 :=
  paint_only_one_cell ⟨false, false, false, true, some (1, 0)⟩
    (AppState.mk 60 ⟨2, 2, [1, 0, 1, 0]⟩ [0, 0, 0, 0]) 1 0 2 rfl rfl (by decide)

/-- Claim C6 counterexample: holding reset does not override the
rate-increase key: on a tick with both Space and Up held, the fps still
moves from 60 to 65, and the painted cell of a simultaneously held left
click still lands in the reseeded grid. -/
theorem reset_does_not_override :
    (tick (fun _ => false) ⟨true, true, false, false, none⟩
      (AppState.mk 60 ⟨1, 1, [0]⟩ [0])).fps = 65 ∧
    ¬ (65 : Nat) = 60 ∧
    cellAt (inputStep (fun _ => false) ⟨true, false, false, true, some (0, 0)⟩
      (AppState.mk 60 ⟨1, 1, [0]⟩ [0])).grid 0 = 1 := by
  decide

/-- Claim C6 amended: input is evaluated once per tick in the fixed source
order reset, rate increase, rate decrease, paint — but reset does NOT
override the lower-priority actions: the rate keys take effect regardless
of reset, and a held in-bounds left click paints its cell into the grid
(reseeded or not) that feeds the Compute Step of that tick. -/
theorem input_fixed_order_no_override (r : Nat → Bool) (inp : Input) (s : AppState)
    (x y : Nat) (hm : inp.mousePos = some (x, y)) (hl : inp.leftHeld = true)
    (hx : x < s.grid.width) (hy : y < s.grid.height)
    (hlen : s.grid.cells.length = s.grid.width * s.grid.height) :
    inputStep r inp s = paintStep inp (rateStep inp (resetStep r inp s)) ∧
    (inputStep r inp s).fps = applyRate inp s.fps ∧
    cellAt (inputStep r inp s).grid (y * s.grid.width + x) = 1 :=
  ⟨rfl, inputStep_fps r inp s, inputStep_paints r inp s x y hm hl hx hy hlen⟩

/-- Witness for C6 amended: reset, Up and a left click at (0, 0) all held
on a 1×1 grid. -/
theorem input_fixed_order_no_override_witness :
    inputStep (fun _ => false) ⟨true, true, false, true, some (0, 0)⟩
        (AppState.mk 60 ⟨1, 1, [0]⟩ [0]) =
      paintStep ⟨true, true, false, true, some (0, 0)⟩
        (rateStep ⟨true, true, false, true, some (0, 0)⟩
          (resetStep (fun _ => false) ⟨true, true, false, true, some (0, 0)⟩
            (AppState.mk 60 ⟨1, 1, [0]⟩ [0]))) ∧
    (inputStep (fun _ => false) ⟨true, true, false, true, some (0, 0)⟩
      (AppState.mk 60 ⟨1, 1, [0]⟩ [0])).fps =
        applyRate ⟨true, true, false, true, some (0, 0)⟩
          (AppState.mk 60 ⟨1, 1, [0]⟩ [0]).fps ∧
    cellAt (inputStep (fun _ => false) ⟨true, true, false, true, some (0, 0)⟩
        (AppState.mk 60 ⟨1, 1, [0]⟩ [0])).grid
      (0 * (AppState.mk 60 ⟨1, 1, [0]⟩ [0]).grid.width + 0) = 1 :=
  input_fixed_order_no_override (fun _ => false) ⟨true, true, false, true, some (0, 0)⟩
    (AppState.mk 60 ⟨1, 1, [0]⟩ [0]) 0 0 rfl rfl (by decide) (by decide) (by decide)

lemma renderInto_eq (cells : List Nat) :
    ∀ (fb : List Nat) (i : Nat), i + cells.length ≤ fb.length →
      renderInto fb cells i = fb.take i ++ cells.map colorOf ++ fb.drop (i + cells.length) := by
  induction cells with
  | nil =>
    intro fb i h
    simp [renderInto]
  | cons c cs ih =>
    intro fb i h
    have hi : i < fb.length := by
      simp only [List.length_cons] at h
      omega
    show renderInto (fb.set i (colorOf c)) cs (i + 1) = _
    rw [ih (fb.set i (colorOf c)) (i + 1)
      (by simp only [List.length_set]; simp only [List.length_cons] at h; omega)]
    rw [List.set_take, List.drop_set, if_pos (by omega)]
    rw [List.set_eq_take_cons_drop (colorOf c)
      (by simp only [List.length_take]; omega)]
    rw [List.take_take, Nat.min_eq_left (by omega),
      List.drop_eq_nil_of_le (by simp only [List.length_take]; omega)]
    have hidx : i + 1 + cs.length = i + (c :: cs).length := by
      simp only [List.length_cons]
      omega
    rw [hidx]
    simp [List.append_assoc]

lemma renderInto_map (fb cells : List Nat) (h : fb.length = cells.length) :
    renderInto fb cells 0 = cells.map colorOf := by
  rw [renderInto_eq cells fb 0 (by omega)]
  rw [List.take_zero, Nat.zero_add, List.drop_eq_nil_of_le (by omega),
    List.nil_append, List.append_nil]

/-- Claim C7: the Render Bridge is a pure per-cell mapping: when the frame
buffer and the grid have the same length, the fill loop rewrites the
entire buffer into exactly the per-cell colors (alive ↦ ALIVE_COLOR,
dead ↦ DEAD_COLOR, independent of the previous buffer contents), and
applying it twice to the same grid yields the identical pixel buffer. -/
theorem render_bridge_pure (fb cells : List Nat) (j : Nat) (h : fb.length = cells.length) :
    renderInto fb cells 0 = cells.map colorOf ∧
    (j < cells.length →
      (renderInto fb cells 0).getD j 0 =
        if cells.getD j 0 = 1 then ALIVE_COLOR else DEAD_COLOR) ∧
    renderInto (renderInto fb cells 0) cells 0 = renderInto fb cells 0 := by
  have h1 := renderInto_map fb cells h
  refine ⟨h1, fun hj => ?_, ?_⟩
  · rw [h1]
    have hj2 : j < (cells.map colorOf).length := by simpa using hj
    rw [List.getD_eq_getElem _ _ hj2, List.getElem_map, List.getD_eq_getElem _ _ hj]
    rfl
  · rw [h1, renderInto_map (cells.map colorOf) cells (by simp)]

/-- Witness for C7 with a dirty two-pixel buffer and cells [1, 0]. -/
theorem render_bridge_pure_witness :
    renderInto [7, 7] [1, 0] 0 = [1, 0].map colorOf ∧
    ((0 : Nat) < ([1, 0] : List Nat).length →
      (renderInto [7, 7] [1, 0] 0).getD 0 0 =
        if ([1, 0] : List Nat).getD 0 0 = 1 then ALIVE_COLOR else DEAD_COLOR) ∧
    renderInto (renderInto [7, 7] [1, 0] 0) [1, 0] 0 = renderInto [7, 7] [1, 0] 0 :=
  render_bridge_pure [7, 7] [1, 0] 0 (by decide)

/-- Claim C8: one Frame Loop iteration is, in order, input poll, Compute
Step on the freshly edited grid, Render Bridge on the newly computed grid,
and the swap making the new grid the current one: the resulting state is
exactly that composition, and the pixel buffer presented during the tick
is the per-cell color image of the grid that is current for the following
iteration. -/
theorem frame_loop_order (r : Nat → Bool) (inp : Input) (s : AppState)
    (hfb : s.frameBuffer.length = s.grid.width * s.grid.height) :
    tick r inp s =
      { fps := (inputStep r inp s).fps
        grid := nextGrid (inputStep r inp s).grid
        frameBuffer :=
          renderInto (inputStep r inp s).frameBuffer
            (nextGrid (inputStep r inp s).grid).cells 0 } ∧
    (tick r inp s).grid = nextGrid (inputStep r inp s).grid ∧
    (tick r inp s).frameBuffer = (tick r inp s).grid.cells.map colorOf := by
  refine ⟨rfl, rfl, ?_⟩
  show renderInto (inputStep r inp s).frameBuffer (nextGrid (inputStep r inp s).grid).cells 0 =
    (nextGrid (inputStep r inp s).grid).cells.map colorOf
  apply renderInto_map
  rw [inputStep_frameBuffer, nextGrid_length, inputStep_width, inputStep_height]
  exact hfb

/-- Witness for C8 on a 1×2 grid with a matching two-pixel buffer. -/
theorem frame_loop_order_witness :
    tick (fun _ => false) ⟨false, false, false, false, none⟩
        (AppState.mk 60 ⟨1, 2, [1, 1]⟩ [0, 0]) =
      { fps := (inputStep (fun _ => false) ⟨false, false, false, false, none⟩
          (AppState.mk 60 ⟨1, 2, [1, 1]⟩ [0, 0])).fps
        grid := nextGrid (inputStep (fun _ => false) ⟨false, false, false, false, none⟩
          (AppState.mk 60 ⟨1, 2, [1, 1]⟩ [0, 0])).grid
        frameBuffer :=
          renderInto (inputStep (fun _ => false) ⟨false, false, false, false, none⟩
              (AppState.mk 60 ⟨1, 2, [1, 1]⟩ [0, 0])).frameBuffer
            (nextGrid (inputStep (fun _ => false) ⟨false, false, false, false, none⟩
              (AppState.mk 60 ⟨1, 2, [1, 1]⟩ [0, 0])).grid).cells 0 } ∧
    (tick (fun _ => false) ⟨false, false, false, false, none⟩
        (AppState.mk 60 ⟨1, 2, [1, 1]⟩ [0, 0])).grid =
      nextGrid (inputStep (fun _ => false) ⟨false, false, false, false, none⟩
        (AppState.mk 60 ⟨1, 2, [1, 1]⟩ [0, 0])).grid ∧
    (tick (fun _ => false) ⟨false, false, false, false, none⟩
        (AppState.mk 60 ⟨1, 2, [1, 1]⟩ [0, 0])).frameBuffer =
      (tick (fun _ => false) ⟨false, false, false, false, none⟩
        (AppState.mk 60 ⟨1, 2, [1, 1]⟩ [0, 0])).grid.cells.map colorOf :=
  frame_loop_order (fun _ => false) ⟨false, false, false, false, none⟩
    (AppState.mk 60 ⟨1, 2, [1, 1]⟩ [0, 0]) (by decide)

lemma lifeRule_01 (cur n : Nat) : lifeRule cur n = 0 ∨ lifeRule cur n = 1 := by
  unfold lifeRule
  split <;> split <;> simp

lemma cellsOk_nextGrid (g : Grid) : CellsOk (nextGrid g) := by
  intro c hc
  obtain ⟨i, _, hci⟩ := List.mem_map.mp hc
  rw [← hci]
  exact lifeRule_01 _ _

lemma cellsOk_randomGrid (w h : Nat) (r : Nat → Bool) : CellsOk (randomGrid w h r) := by
  intro c hc
  obtain ⟨i, _, hci⟩ := List.mem_map.mp hc
  rw [← hci]
  by_cases hr : r i = true <;> simp [hr]

lemma cellsOk_set_one (g : Grid) (i : Nat) (h : CellsOk g) :
    CellsOk { g with cells := g.cells.set i 1 } := by
  intro c hc
  rcases List.mem_or_eq_of_mem_set hc with hmem | hone
  · exact h c hmem
  · right
    exact hone

lemma cellsOk_inputStep (r : Nat → Bool) (inp : Input) (s : AppState)
    (h : CellsOk s.grid) : CellsOk (inputStep r inp s).grid := by
  rw [inputStep_grid]
  have hreset : CellsOk (resetStep r inp s).grid := by
    unfold resetStep
    split
    · exact cellsOk_randomGrid _ _ _
    · exact h
  set t := resetStep r inp s with ht
  unfold paintStep
  cases hp : inp.mousePos with
  | none => exact hreset
  | some p =>
    obtain ⟨x, y⟩ := p
    by_cases hl : inp.leftHeld = true
    · by_cases hb : x < t.grid.width ∧ y < t.grid.height
      · simpa [hl, hb] using cellsOk_set_one t.grid (y * t.grid.width + x) hreset
      · simpa [hl, hb] using hreset
    · simpa [hl] using hreset

/-- Claim C9: every grid the program can reach holds only the byte values
0 and 1: the initial seeding satisfies it, it is preserved across the
input edits of a tick (reseeding and painting), and every Compute Step
output satisfies it. -/
theorem reachable_cells_01 (r : Nat → Bool) (inp : Input) (s : AppState)
    (h : Reaches s) :
    CellsOk s.grid ∧ CellsOk (inputStep r inp s).grid ∧ CellsOk (tick r inp s).grid := by
  have hs : CellsOk s.grid := by
    induction h with
    | init a r0 => exact cellsOk_randomGrid _ _ _
    | step r0 inp0 s0 _ _ => exact cellsOk_nextGrid _
  exact ⟨hs, cellsOk_inputStep r inp s hs, cellsOk_nextGrid _⟩

/-- Witness for C9 at the initial state for default arguments. -/
theorem reachable_cells_01_witness :
    CellsOk (initState ⟨60⟩ (fun _ => false)).grid ∧
    CellsOk (inputStep (fun _ => false) ⟨false, false, false, false, none⟩
      (initState ⟨60⟩ (fun _ => false))).grid ∧
    CellsOk (tick (fun _ => false) ⟨false, false, false, false, none⟩
      (initState ⟨60⟩ (fun _ => false))).grid :=
  reachable_cells_01 (fun _ => false) ⟨false, false, false, false, none⟩
    (initState ⟨60⟩ (fun _ => false)) (Reaches.init ⟨60⟩ (fun _ => false))

end RBLife
